import Mathlib

/-!
Verification development for `node-linker-pro.mjs`, the external
`node_modules` linker.  The tool relocates a project's `node_modules`
directory to a per-project cache directory (keyed by the SHA-1 digest of
the absolute project path), replaces the original location with a
symlink/junction, verifies the link, and runs `npm install` when the
cache is empty.

The embedding below models:
  * the cache locator (`defaultStoreDir`, the SHA-1 cache key, `target`);
  * Node's posix-style path helpers used by the tool (`path.join`,
    `path.resolve`, `path.dirname`), restricted to absolute,
    `/`-separated paths, which is the shape of every path the tool
    compares (the project dir comes from `process.cwd()` and the store
    dir is absolute);
  * the `main()` pipeline as a function over an explicit filesystem
    state plus an oracle of environment-determined outcomes (Windows
    junction preflight result, the raw text the OS stores in a created
    link, the installer's exit code).

Filesystem primitives are given their documented semantics: `mkdir`
with `recursive` creates a missing directory and never alters an
existing one; `rename(src, dst)` onto an existing directory succeeds
on POSIX exactly when `dst` is empty (`rename(2)` fails with ENOTEMPTY
otherwise) and on Windows never — `MoveFileExW` cannot replace an
existing directory (EPERM), and the `mkdir` the tool issues right
before its rename guarantees the destination exists; `rm` with
`force` on a missing path is a no-op.  The external installer is a
black box per the design: it is modelled by its exit code only.
-/

/-! ### SHA-1 over Nat (32-bit words as `Nat` reduced mod 2^32) -/

def u32 (n : Nat) : Nat := n % 4294967296

def rotl (k x : Nat) : Nat := u32 ((x <<< k) ||| (x >>> (32 - k)))

/-- UTF-8 encoding of one character, as the list of its byte values. -/
def utf8EncodeChar (c : Char) : List Nat :=
  let n := c.toNat
  if n < 128 then [n]
  else if n < 2048 then [192 + n / 64, 128 + n % 64]
  else if n < 65536 then [224 + n / 4096, 128 + (n / 64) % 64, 128 + n % 64]
  else [240 + n / 262144, 128 + (n / 4096) % 64, 128 + (n / 64) % 64, 128 + n % 64]

/-- The UTF-8 bytes of a string (Node hashes the path's UTF-8 bytes). -/
def strBytes (s : String) : List Nat := (s.data.map utf8EncodeChar).flatten

/-- SHA-1 padding: append 0x80, zero bytes to 56 mod 64, then the
bit length as 8 big-endian bytes. -/
def sha1pad (msg : List Nat) : List Nat :=
  let len := msg.length
  let bitLen := 8 * len
  let zeros := (64 - ((len + 9) % 64)) % 64
  msg ++ [128] ++ List.replicate zeros 0 ++
    (List.range 8).map (fun i => (bitLen >>> (8 * (7 - i))) % 256)

/-- Big-endian 32-bit words from a byte list whose length is a multiple
of four. -/
def bytesToWords : List Nat → List Nat
  | a :: b :: c :: d :: rest => (((a * 256 + b) * 256 + c) * 256 + d) :: bytesToWords rest
  | _ => []

/-- Split a word list into 16-word blocks (length is a multiple of 16). -/
def chunk16 : List Nat → List (List Nat)
  | w0 :: w1 :: w2 :: w3 :: w4 :: w5 :: w6 :: w7 ::
    w8 :: w9 :: w10 :: w11 :: w12 :: w13 :: w14 :: w15 :: rest =>
      [w0, w1, w2, w3, w4, w5, w6, w7, w8, w9, w10, w11, w12, w13, w14, w15]
        :: chunk16 rest
  | _ => []

/-- Extend a 16-word block by `k` more schedule words. -/
def sha1Extend : Nat → List Nat → List Nat
  | 0, w => w
  | k + 1, w =>
      let n := w.length
      let t := rotl 1 (w.getD (n - 3) 0 ^^^ w.getD (n - 8) 0 ^^^
                       w.getD (n - 14) 0 ^^^ w.getD (n - 16) 0)
      sha1Extend k (w ++ [t])

/-- One SHA-1 compression round at index `i`. -/
def sha1Round (w : List Nat) (st : Nat × Nat × Nat × Nat × Nat) (i : Nat) :
    Nat × Nat × Nat × Nat × Nat :=
  let (a, b, c, d, e) := st
  let f :=
    if i < 20 then (b &&& c) ||| ((b ^^^ 4294967295) &&& d)
    else if i < 40 then b ^^^ c ^^^ d
    else if i < 60 then (b &&& c) ||| (b &&& d) ||| (c &&& d)
    else b ^^^ c ^^^ d
  let k :=
    if i < 20 then 1518500249
    else if i < 40 then 1859775393
    else if i < 60 then 2400959708
    else 3395469782
  let temp := u32 (rotl 5 a + f + e + k + w.getD i 0)
  (temp, a, rotl 30 b, c, d)

/-- Process one 16-word block. -/
def sha1Block (h : Nat × Nat × Nat × Nat × Nat) (block : List Nat) :
    Nat × Nat × Nat × Nat × Nat :=
  let w := sha1Extend 64 block
  let (a0, b0, c0, d0, e0) := h
  let (a, b, c, d, e) := (List.range 80).foldl (sha1Round w) h
  (u32 (a0 + a), u32 (b0 + b), u32 (c0 + c), u32 (d0 + d), u32 (e0 + e))

def hexDigit (n : Nat) : Char :=
  if n < 10 then Char.ofNat (48 + n) else Char.ofNat (87 + n)

/-- Lower-case hex rendering of a 32-bit word, 8 digits. -/
def toHex8 (n : Nat) : String :=
  String.mk ((List.range 8).map (fun i => hexDigit ((n >>> (4 * (7 - i))) % 16)))

/-- `crypto.createHash("sha1").update(s).digest("hex")`: the lower-case
40-character hexadecimal SHA-1 digest of the UTF-8 bytes of `s`. -/
def sha1hex (s : String) : String :=
  let blocks := chunk16 (bytesToWords (sha1pad (strBytes s)))
  let (a, b, c, d, e) :=
    blocks.foldl sha1Block (1732584193, 4023233417, 2562383102, 271733878, 3285377520)
  toHex8 a ++ toHex8 b ++ toHex8 c ++ toHex8 d ++ toHex8 e

/-! ### Path model (absolute, `/`-separated paths)

The helpers are written as structural recursions over `List Char` so
that every path computation evaluates inside the kernel. -/

/-- Split a character list at `/`, accumulating the current segment in
reverse. -/
def chSplit : List Char → List Char → List (List Char)
  | [], acc => [acc.reverse]
  | c :: rest, acc =>
      if c = '/' then acc.reverse :: chSplit rest []
      else chSplit rest (c :: acc)

/-- Non-empty segments of a path string. -/
def splitSegs (p : String) : List String :=
  ((chSplit p.data []).filter (fun l => l ≠ [])).map (fun l => ⟨l⟩)

/-- One step of segment normalization: `.` is dropped, `..` pops. -/
def normStep (acc : List String) (seg : String) : List String :=
  if seg = "." then acc
  else if seg = ".." then acc.dropLast
  else acc ++ [seg]

/-- Interleave `/` between segments. -/
def interSlash : List String → String
  | [] => ""
  | [s] => s
  | s :: rest => s ++ "/" ++ interSlash rest

/-- Render absolute path from segments. -/
def joinAbs (segs : List String) : String :=
  "/" ++ interSlash segs

/-- Whether a path string is absolute (starts with `/`). -/
def isAbsPath (p : String) : Bool :=
  match p.data with
  | c :: _ => c = '/'
  | [] => false

/-- `path.resolve(base, p)` for an absolute `base`: an absolute `p`
stands alone, a relative one is appended to `base`; `.`/`..` segments
are normalized away. -/
def pathResolve (base p : String) : String :=
  let segs := if isAbsPath p then splitSegs p else splitSegs base ++ splitSegs p
  joinAbs (segs.foldl normStep [])

/-- `path.dirname` of an absolute path. -/
def dirname (p : String) : String := joinAbs ((splitSegs p).dropLast)

/-- ASCII lower-casing of one character (the tool's paths are compared
after Node's `toLowerCase`; the modelled paths are ASCII). -/
def lowerChar (c : Char) : Char :=
  if 65 ≤ c.toNat ∧ c.toNat ≤ 90 then Char.ofNat (c.toNat + 32) else c

/-- ASCII lower-casing of a string. -/
def lowerStr (s : String) : String := ⟨s.data.map lowerChar⟩

/-- `path.join(a, b)` for a segment `b` free of separators and dots
(the tool only joins fixed names and the 40-char hex digest). -/
def pathJoin (a b : String) : String := a ++ "/" ++ b

/-! ### Cache locator -/

inductive Platform
  | win32
  | darwin
  | linux
deriving DecidableEq

/-- `defaultStoreDir()` (lines 62-71): the platform-specific cache root,
as a function of the platform, the home directory, and the optional
`LOCALAPPDATA` environment value. -/
def defaultStoreDir (plat : Platform) (home : String) (localAppData : Option String) :
    String :=
  match plat with
  | .win32 =>
      pathJoin (pathJoin (localAppData.getD (pathJoin (pathJoin home "AppData") "Local"))
        "Temp") "node_modules_cache"
  | .darwin =>
      pathJoin (pathJoin (pathJoin home "Library") "Caches") "node_modules_store"
  | .linux =>
      pathJoin (pathJoin home ".cache") "node_modules_store"

/-- Line 73: `EXTERNAL_NODE_MODULES_DIR || defaultStoreDir()` — JavaScript
`||` falls through on the empty string, so an empty override is ignored. -/
def storeDirOf (override : Option String) (plat : Platform) (home : String)
    (localAppData : Option String) : String :=
  match override with
  | some s => if s = "" then defaultStoreDir plat home localAppData else s
  | none => defaultStoreDir plat home localAppData

/-- Lines 74-75: `target = path.join(storeDir, sha1hex(projectDir))` —
the per-project cache directory. -/
def cacheTargetOf (storeDir projectDir : String) : String :=
  pathJoin storeDir (sha1hex projectDir)

/-! ### Pipeline state model -/

/-- One file in a directory: relative path and byte content. -/
abbrev FileEntry := String × String

/-- The state of the `node_modules` slot in the project directory:
absent, an ordinary (real) directory with its files, or a symbolic
link/junction whose stored link text is `raw`. -/
inductive SlotState
  | absent
  | realDir (files : List FileEntry)
  | symlink (raw : String)
deriving DecidableEq

/-- Filesystem state relevant to one run.

`targetDir` is the node at the cache target path (`none` = absent);
`targetReadable` is whether listing that directory is permitted
(`readdir` throws EACCES when it is not — `lstat` still succeeds);
`otherDirs` stands for every directory outside the store root, slot and
target: the pipeline never names such a path, so the field shows which
parts of the filesystem a run can never touch. -/
structure St where
  cacheRootExists : Bool
  slot : SlotState
  targetDir : Option (List FileEntry)
  targetReadable : Bool
  otherDirs : List (String × List FileEntry)
deriving DecidableEq

/-- Fixed configuration of one invocation. -/
structure Config where
  isWin : Bool
  projectDir : String
  storeDir : String
deriving DecidableEq

/-- Line 60: `nmPath = path.join(projectDir, "node_modules")`. -/
def Config.nmPath (cfg : Config) : String := pathJoin cfg.projectDir "node_modules"

/-- Lines 74-75 applied to this configuration. -/
def Config.target (cfg : Config) : String :=
  cacheTargetOf cfg.storeDir cfg.projectDir

/-- Environment-determined outcomes injected into a run:
`preflightOk` — result of the throwaway-junction preflight (Windows
only; it operates entirely under `os.tmpdir()`, outside the modelled
paths); `symlinkEffect` — `none` when `fsp.symlink` throws, `some raw`
when it creates a link whose stored text is `raw` (an honest OS stores
exactly the requested target; a faulty double may store anything);
`installerExit` — exit code of the spawned `npm install`. -/
structure Oracle where
  preflightOk : Bool
  symlinkEffect : Option String
  installerExit : Nat
deriving DecidableEq

/-- Error taxonomy of the pipeline (each constructor is one `throw`
site of `main()`, plus the unclassified errors that propagate from
`fsp.rename` and `fsp.readdir`). -/
inductive RunError
  | linkMismatch
  | linkUnsupported
  | linkCreateFailed
  | linkVerificationFailed
  | renameError
  | readdirError
  | installerFailed (code : Nat)
deriving DecidableEq

inductive RunResult
  | ok
  | err (e : RunError)
deriving DecidableEq

/-- Observable outcome of one run: final filesystem state, how many
times the installer collaborator was spawned, whether the run reached
the `Linked` state (the two success log lines), and the result. -/
structure Outcome where
  final : St
  installs : Nat
  linked : Bool
  result : RunResult
deriving DecidableEq

/-- Lines 84-87: `normalizeForCompare` — `path.resolve` then lower-case
on Windows (case-insensitive filesystem), exact elsewhere.  The single
argument form of `path.resolve` resolves against the process cwd, the
project directory. -/
def normalizeForCompare (cfg : Config) (p : String) : String :=
  let n := pathResolve cfg.projectDir p
  if cfg.isWin then lowerStr n else n

/-- Lines 89-100: `verifyLinkPointsTo(nmPath, target)` applied to a slot
that is a symlink with stored text `raw`: resolve the (possibly
relative) text against the link's parent and compare, case-aware,
against the expected target. -/
def verifyLink (cfg : Config) (raw : String) : Bool :=
  normalizeForCompare cfg (pathResolve (dirname cfg.nmPath) raw) ==
    normalizeForCompare cfg cfg.target

/-- Lines 123-129: spawn `npm install`; resolve on exit 0, reject with
`installerFailed` otherwise.  Invoked only after `Linked` is reached.
The installer is a black-box collaborator (spec §1): its own effect on
the cache tree is out of scope and not modelled. -/
def runInstall (exit : Nat) (s : St) : Outcome :=
  if exit = 0 then ⟨s, 1, true, .ok⟩ else ⟨s, 1, true, .err (.installerFailed exit)⟩

/-- Lines 145-153: the already-linked branch.  `exists(target)` is an
`lstat` probe that never throws; `readdir` runs only when the target
exists and throws on a permission error; a missing target means
`files = []`, hence an install. -/
def branchLinked (orc : Oracle) (s : St) : Outcome :=
  match s.targetDir with
  | none => runInstall orc.installerExit s
  | some fs =>
      if s.targetReadable then
        if fs.isEmpty then runInstall orc.installerExit s
        else ⟨s, 0, true, .ok⟩
      else ⟨s, 0, true, .err .readdirError⟩

/-- Lines 168-229: the tail of `main()` once the slot is vacant and the
target directory exists — Windows preflight gate, link creation,
read-back verification with best-effort cleanup, then the emptiness
check and conditional install. -/
def afterVacate (cfg : Config) (orc : Oracle) (s : St) : Outcome :=
  if cfg.isWin && !orc.preflightOk then ⟨s, 0, false, .err .linkUnsupported⟩
  else
    match orc.symlinkEffect with
    | none => ⟨s, 0, false, .err .linkCreateFailed⟩
    | some raw =>
        if verifyLink cfg raw then
          match s.targetDir with
          | some fs =>
              if s.targetReadable then
                if fs.isEmpty then
                  runInstall orc.installerExit { s with slot := SlotState.symlink raw }
                else ⟨{ s with slot := SlotState.symlink raw }, 0, true, .ok⟩
              else ⟨{ s with slot := SlotState.symlink raw }, 0, true, .err .readdirError⟩
          | none => ⟨{ s with slot := SlotState.symlink raw }, 0, true, .err .readdirError⟩
        else ⟨{ s with slot := SlotState.absent }, 0, false, .err .linkVerificationFailed⟩

/-- Lines 131-230: `main()`.  First `mkdir(storeDir, recursive)` (never
alters an existing root), then the slot classification: a symlink is
verified against the target and either confirmed (install-if-empty) or
rejected with `LinkMismatch`, touching nothing; a real directory is
moved onto the target by `rename` after the `mkdir` of line 158 has
ensured the destination directory exists — so on POSIX the rename
succeeds exactly when that existing target is empty (ENOTEMPTY
otherwise), and on Windows it always fails with EPERM, because
`MoveFileExW` cannot replace an existing directory; the `mkdir`'s own
effect (creating an absent target as an empty, listable directory)
persists in the error state.  An absent slot just ensures the target
exists.  The vacated-slot tail then runs.  A directory this process
produced at the target (fresh or renamed-in) is listable, so
`targetReadable` becomes `true` on those paths.  `classify` is the body
after the initial `mkdir`; `runMain` below is the whole of `main()`. -/
def classify (cfg : Config) (orc : Oracle) (s : St) : Outcome :=
  match s.slot with
  | SlotState.symlink raw =>
      if verifyLink cfg raw then branchLinked orc s
      else ⟨s, 0, false, .err .linkMismatch⟩
  | SlotState.realDir files =>
      if cfg.isWin then
        ⟨{ s with targetDir := some (s.targetDir.getD []),
                  targetReadable := s.targetDir.isNone || s.targetReadable },
          0, false, .err .renameError⟩
      else if (s.targetDir.getD []).isEmpty then
        afterVacate cfg orc
          { s with slot := SlotState.absent, targetDir := some files,
                   targetReadable := true }
      else ⟨s, 0, false, .err .renameError⟩
  | SlotState.absent =>
      match s.targetDir with
      | none =>
          afterVacate cfg orc { s with targetDir := some [], targetReadable := true }
      | some fs => afterVacate cfg orc { s with targetDir := some fs }

/-- Line 133 then lines 136-229: `main()` first ensures the cache root
exists (`mkdir` recursive — creates it when absent, alters nothing when
present), then classifies and transitions the slot. -/
def runMain (cfg : Config) (orc : Oracle) (s0 : St) : Outcome :=
  classify cfg orc { s0 with cacheRootExists := true }

/-- Lines 232-235: `main().catch(... process.exit(1))` — a clean finish
exits 0, every fatal error exits with the generic code 1. -/
def exitCode (o : Outcome) : Nat :=
  match o.result with
  | .ok => 0
  | .err _ => 1

/-- Sample posix configuration used by concrete runs in witnesses. -/
def cfgU : Config := ⟨false, "/p", "/s"⟩

/-! ### Helper lemmas -/

set_option maxRecDepth 100000

theorem runInstall_final (e : Nat) (s : St) : (runInstall e s).final = s := by
  unfold runInstall
  split <;> rfl

theorem branchLinked_final (orc : Oracle) (s : St) : (branchLinked orc s).final = s := by
  unfold branchLinked runInstall
  repeat' split
  all_goals rfl

theorem afterVacate_root (cfg : Config) (orc : Oracle) (s : St) :
    (afterVacate cfg orc s).final.cacheRootExists = s.cacheRootExists := by
  unfold afterVacate runInstall
  repeat' split
  all_goals rfl

theorem pathJoin_right_inj (a b c : String) (h : pathJoin a b = pathJoin a c) : b = c := by
  unfold pathJoin at h
  have hd := congrArg String.data h
  simp [String.data_append] at hd
  exact String.ext hd

/-! ### Claims -/

/-- C1: for every invocation where the `node_modules` slot is a
pre-existing symlink that does not resolve to the cache target, the run
fails with the `LinkMismatch` error and the filesystem is left exactly
as found except that the cache root now exists: the slot, the cache
target and every other directory (in particular the one the stale link
resolves to) are unchanged. -/
theorem nlp_C1_stale_link_fail_closed (cfg : Config) (orc : Oracle) (s : St) (raw : String)
    (hslot : s.slot = SlotState.symlink raw) (hbad : verifyLink cfg raw = false) :
    (runMain cfg orc s).result = RunResult.err RunError.linkMismatch ∧
    (runMain cfg orc s).final = { s with cacheRootExists := true } := by
  obtain ⟨rt, sl, td, tr, od⟩ := s
  cases hslot
  simp [runMain, classify, hbad]

/-- C1 witness: a concrete stale-link run fails closed. -/
theorem nlp_C1_stale_link_fail_closed_wit :
    (runMain ⟨false, "/p", "/s"⟩ ⟨true, some "/x", 0⟩
        ⟨false, SlotState.symlink "/elsewhere", some [("a", "1")], true,
          [("/elsewhere", [("f", "c")])]⟩).result = RunResult.err RunError.linkMismatch ∧
    (runMain ⟨false, "/p", "/s"⟩ ⟨true, some "/x", 0⟩
        ⟨false, SlotState.symlink "/elsewhere", some [("a", "1")], true,
          [("/elsewhere", [("f", "c")])]⟩).final =
      ⟨true, SlotState.symlink "/elsewhere", some [("a", "1")], true,
        [("/elsewhere", [("f", "c")])]⟩ :=
  nlp_C1_stale_link_fail_closed ⟨false, "/p", "/s"⟩ ⟨true, some "/x", 0⟩
    ⟨false, SlotState.symlink "/elsewhere", some [("a", "1")], true,
      [("/elsewhere", [("f", "c")])]⟩ "/elsewhere" rfl (by decide)

/-- C9: with the store directory (platform default or override) held
fixed, the cache locator is deterministic — computing the target for the
same project path twice gives the same result — and two project paths
with distinct SHA-1 digests receive distinct cache targets. -/
theorem nlp_C9_locator_deterministic_injective (storeDir p1 p2 : String)
    (hdig : sha1hex p1 ≠ sha1hex p2) :
    cacheTargetOf storeDir p1 = cacheTargetOf storeDir p1 ∧
    cacheTargetOf storeDir p1 ≠ cacheTargetOf storeDir p2 := by
  refine ⟨rfl, fun h => hdig ?_⟩
  exact pathJoin_right_inj storeDir _ _ h

/-- C9 witness: on the Linux default store dir, two concrete project
paths with distinct digests get distinct cache targets. -/
theorem nlp_C9_locator_deterministic_injective_wit :
    cacheTargetOf (defaultStoreDir Platform.linux "/home/u" none) "/p" =
      cacheTargetOf (defaultStoreDir Platform.linux "/home/u" none) "/p" ∧
    cacheTargetOf (defaultStoreDir Platform.linux "/home/u" none) "/p" ≠
      cacheTargetOf (defaultStoreDir Platform.linux "/home/u" none) "/q" :=
  nlp_C9_locator_deterministic_injective _ "/p" "/q" (by decide)

/-- C10: every run of `main()` (the non-help pipeline) ends with the
cache root directory existing — `mkdir(storeDir, recursive)` runs first,
before the slot is classified — so even a run that fails immediately
with `LinkMismatch`, leaving the slot untouched, has created the cache
root when it was absent. -/
theorem nlp_C10_cache_root_always_created (cfg : Config) (orc : Oracle) (s : St) :
    (runMain cfg orc s).final.cacheRootExists = true := by
  obtain ⟨rt, sl, td, tr, od⟩ := s
  cases sl with
  | symlink raw =>
      by_cases h : verifyLink cfg raw
      · have := branchLinked_final orc ⟨true, SlotState.symlink raw, td, tr, od⟩
        simp [runMain, classify, h, this]
      · simp [runMain, classify, h]
  | realDir files =>
      cases hw : cfg.isWin
      · by_cases h : (td.getD []).isEmpty
        · have := afterVacate_root cfg orc
            ⟨true, SlotState.absent, some files, true, od⟩
          simp [runMain, classify, hw, h, this]
        · simp [runMain, classify, hw, h]
      · simp [runMain, classify, hw]
  | absent =>
      cases td with
      | none =>
          have := afterVacate_root cfg orc ⟨true, SlotState.absent, some [], true, od⟩
          simp [runMain, classify, this]
      | some fs =>
          have := afterVacate_root cfg orc ⟨true, SlotState.absent, some fs, tr, od⟩
          simp [runMain, classify, this]

/-- Gate condition used in the link-creation stage: the Windows
preflight only blocks when the platform requires junctions and the
preflight failed. -/
theorem gate_false_of_preflight (cfg : Config) (orc : Oracle)
    (hpre : cfg.isWin = true → orc.preflightOk = true) :
    (cfg.isWin && !orc.preflightOk) = false := by
  cases hw : cfg.isWin
  · simp
  · simp [hpre hw]

/-- C3: whenever the run reaches link creation (slot vacated — it was
absent, or it was a real directory relocated by a successful rename,
which requires a POSIX platform and an empty-or-absent target — and the
Windows preflight passed), the link is created, and the read-back of
the stored link text does not resolve to the cache target under the
case-aware comparison, the run removes the just-created link and fails
with `LinkVerificationFailed`: the final slot holds no link at all. -/
theorem nlp_C3_verification_gate (cfg : Config) (orc : Oracle) (s : St) (raw : String)
    (hpre : cfg.isWin = true → orc.preflightOk = true)
    (hln : orc.symlinkEffect = some raw)
    (hbad : verifyLink cfg raw = false)
    (hreach : s.slot = SlotState.absent ∨
      (cfg.isWin = false ∧
        ∃ fs, s.slot = SlotState.realDir fs ∧ (s.targetDir.getD []).isEmpty = true)) :
    (runMain cfg orc s).result = RunResult.err RunError.linkVerificationFailed ∧
    (runMain cfg orc s).final.slot = SlotState.absent := by
  have hgate := gate_false_of_preflight cfg orc hpre
  obtain ⟨rt, sl, td, tr, od⟩ := s
  rcases hreach with h | ⟨hw, fs, h, hemp⟩ <;> cases h
  · cases td <;> simp [runMain, classify, afterVacate, hgate, hln, hbad]
  · simp only at hemp
    simp [runMain, classify, afterVacate, hgate, hln, hbad, hemp, hw]

/-- C3 witness: a faulty link double (stored text `/evil`) is detected
and removed. -/
theorem nlp_C3_verification_gate_wit :
    (runMain ⟨false, "/p", "/s"⟩ ⟨true, some "/evil", 0⟩
        ⟨false, SlotState.absent, none, true, []⟩).result =
      RunResult.err RunError.linkVerificationFailed ∧
    (runMain ⟨false, "/p", "/s"⟩ ⟨true, some "/evil", 0⟩
        ⟨false, SlotState.absent, none, true, []⟩).final.slot = SlotState.absent :=
  nlp_C3_verification_gate ⟨false, "/p", "/s"⟩ ⟨true, some "/evil", 0⟩
    ⟨false, SlotState.absent, none, true, []⟩ "/evil"
    (by decide) rfl (by decide) (Or.inl rfl)

/-- The already-linked branch never reports the preflight error: its
results are only ok, installer failure or the readdir error. -/
theorem branchLinked_not_unsupported (orc : Oracle) (s : St) :
    (branchLinked orc s).result ≠ RunResult.err RunError.linkUnsupported := by
  obtain ⟨rt, sl, td, tr, od⟩ := s
  unfold branchLinked runInstall
  cases td <;> cases tr <;> dsimp only
  all_goals repeat' split
  all_goals simp

/-- C4: on Windows, every run in which the junction preflight fails
aborts with `LinkUnsupported`, and the preflight runs before any
mutation of the slot: the only runs that reach the preflight started
with the slot already absent, and they end with the slot still absent
(nothing moved, nothing removed); a real directory at the slot never
even reaches the preflight, because its rename onto the existing
(mkdir-ensured) target fails with the unclassified EPERM error first,
leaving the directory in place. -/
theorem nlp_C4_preflight_before_slot_mutation (cfg : Config) (orc : Oracle) (s : St)
    (hwin : cfg.isWin = true) (hpf : orc.preflightOk = false) :
    (s.slot = SlotState.absent →
      (runMain cfg orc s).result = RunResult.err RunError.linkUnsupported ∧
      (runMain cfg orc s).final.slot = SlotState.absent) ∧
    ((runMain cfg orc s).result = RunResult.err RunError.linkUnsupported →
      s.slot = SlotState.absent ∧ (runMain cfg orc s).final.slot = SlotState.absent) ∧
    (∀ fs, s.slot = SlotState.realDir fs →
      (runMain cfg orc s).result = RunResult.err RunError.renameError ∧
      (runMain cfg orc s).final.slot = SlotState.realDir fs) := by
  obtain ⟨rt, sl, td, tr, od⟩ := s
  cases sl with
  | symlink raw =>
      by_cases hv : verifyLink cfg raw
      · have heq : runMain cfg orc ⟨rt, SlotState.symlink raw, td, tr, od⟩ =
            branchLinked orc ⟨true, SlotState.symlink raw, td, tr, od⟩ := by
          simp [runMain, classify, hv]
        rw [heq]
        exact ⟨fun h => by simp at h,
          fun h => absurd h (branchLinked_not_unsupported orc _),
          fun fs h => by simp at h⟩
      · have heq : runMain cfg orc ⟨rt, SlotState.symlink raw, td, tr, od⟩ =
            ⟨⟨true, SlotState.symlink raw, td, tr, od⟩, 0, false,
              RunResult.err RunError.linkMismatch⟩ := by
          simp [runMain, classify, hv]
        rw [heq]
        exact ⟨fun h => by simp at h, fun h => by simp at h, fun fs h => by simp at h⟩
  | realDir files =>
      have heq : runMain cfg orc ⟨rt, SlotState.realDir files, td, tr, od⟩ =
          ⟨⟨true, SlotState.realDir files, some (td.getD []), td.isNone || tr, od⟩,
            0, false, RunResult.err RunError.renameError⟩ := by
        simp [runMain, classify, hwin]
      rw [heq]
      refine ⟨fun h => by simp at h, fun h => by simp at h, fun fs h => ?_⟩
      simp only at h
      cases h
      exact ⟨rfl, rfl⟩
  | absent =>
      cases td with
      | none =>
          have heq : runMain cfg orc ⟨rt, SlotState.absent, none, tr, od⟩ =
              ⟨⟨true, SlotState.absent, some [], true, od⟩, 0, false,
                RunResult.err RunError.linkUnsupported⟩ := by
            simp [runMain, classify, afterVacate, hwin, hpf]
          rw [heq]
          exact ⟨fun _ => ⟨rfl, rfl⟩, fun _ => ⟨rfl, rfl⟩, fun fs h => by simp at h⟩
      | some fs =>
          have heq : runMain cfg orc ⟨rt, SlotState.absent, some fs, tr, od⟩ =
              ⟨⟨true, SlotState.absent, some fs, tr, od⟩, 0, false,
                RunResult.err RunError.linkUnsupported⟩ := by
            simp [runMain, classify, afterVacate, hwin, hpf]
          rw [heq]
          exact ⟨fun _ => ⟨rfl, rfl⟩, fun _ => ⟨rfl, rfl⟩, fun fs h => by simp at h⟩

/-- C4 witness: a concrete Windows run with a failing preflight and an
absent slot aborts with `LinkUnsupported`, slot untouched. -/
theorem nlp_C4_preflight_before_slot_mutation_wit :
    (runMain ⟨true, "/p", "/s"⟩ ⟨false, some "/x", 0⟩
        ⟨false, SlotState.absent, none, true, []⟩).result =
      RunResult.err RunError.linkUnsupported ∧
    (runMain ⟨true, "/p", "/s"⟩ ⟨false, some "/x", 0⟩
        ⟨false, SlotState.absent, none, true, []⟩).final.slot = SlotState.absent :=
  (nlp_C4_preflight_before_slot_mutation ⟨true, "/p", "/s"⟩ ⟨false, some "/x", 0⟩
      ⟨false, SlotState.absent, none, true, []⟩ rfl rfl).1 rfl

/-- C5 counterexample: with a real directory at the slot and a
non-empty pre-existing cache target, the run does not move the
directory into the target — `fsp.rename` onto a non-empty directory
fails (ENOTEMPTY) — and the run aborts with that unclassified error:
slot and target are both left as they were. -/
theorem nlp_C5_move_into_nonempty_cex :
    (runMain ⟨false, "/p", "/s"⟩ ⟨true, some "/t", 0⟩
        ⟨true, SlotState.realDir [("a", "1")], some [("b", "2")], true, []⟩).result =
      RunResult.err RunError.renameError ∧
    (runMain ⟨false, "/p", "/s"⟩ ⟨true, some "/t", 0⟩
        ⟨true, SlotState.realDir [("a", "1")], some [("b", "2")], true, []⟩).final.slot =
      SlotState.realDir [("a", "1")] ∧
    (runMain ⟨false, "/p", "/s"⟩ ⟨true, some "/t", 0⟩
        ⟨true, SlotState.realDir [("a", "1")], some [("b", "2")], true, []⟩).final.targetDir =
      some [("b", "2")] := by
  decide

/-- C5 amended: when the slot is a real directory and the cache target
already exists with at least one entry, the run fails with the
unclassified rename error (`rename` onto a non-empty directory) before
any link is created; no merge happens and, apart from ensuring the
cache root, the filesystem is unchanged.  The move proceeds only when
the pre-existing target is empty or absent. -/
theorem nlp_C5_nonempty_target_fails_amended (cfg : Config) (orc : Oracle) (s : St)
    (fs tgt : List FileEntry)
    (hslot : s.slot = SlotState.realDir fs) (htgt : s.targetDir = some tgt)
    (hne : tgt ≠ []) :
    (runMain cfg orc s).result = RunResult.err RunError.renameError ∧
    (runMain cfg orc s).final = { s with cacheRootExists := true } := by
  obtain ⟨rt, sl, td, tr, od⟩ := s
  cases hslot
  simp only at htgt
  cases htgt
  cases hw : cfg.isWin
  · simp [runMain, classify, hw, List.isEmpty_iff, hne]
  · simp [runMain, classify, hw]

/-- C5 amended witness: concrete conflicting run. -/
theorem nlp_C5_nonempty_target_fails_amended_wit :
    (runMain ⟨false, "/p", "/s"⟩ ⟨true, some "/t", 0⟩
        ⟨false, SlotState.realDir [], some [("c", "3")], true, []⟩).result =
      RunResult.err RunError.renameError ∧
    (runMain ⟨false, "/p", "/s"⟩ ⟨true, some "/t", 0⟩
        ⟨false, SlotState.realDir [], some [("c", "3")], true, []⟩).final =
      ⟨true, SlotState.realDir [], some [("c", "3")], true, []⟩ :=
  nlp_C5_nonempty_target_fails_amended ⟨false, "/p", "/s"⟩ ⟨true, some "/t", 0⟩
    ⟨false, SlotState.realDir [], some [("c", "3")], true, []⟩ [] [("c", "3")]
    rfl rfl (by decide)

/-- C7 counterexample: the slot is a valid link and the cache target
exists but cannot be read (permission error).  The claim says the run
treats the target as empty and invokes the installer; in fact the
`readdir` rejection propagates unhandled — the run fails with the
unclassified error and the installer is never invoked. -/
theorem nlp_C7_unreadable_target_cex :
    (runMain cfgU ⟨true, some "/t", 0⟩
        ⟨true, SlotState.symlink cfgU.target, some [("m", "1")], false, []⟩).result =
      RunResult.err RunError.readdirError ∧
    (runMain cfgU ⟨true, some "/t", 0⟩
        ⟨true, SlotState.symlink cfgU.target, some [("m", "1")], false, []⟩).installs = 0 := by
  decide

/-- C7 amended: during the already-linked emptiness check, only a
wholly absent cache target is treated as "needs install" (the `exists`
probe catches `lstat` failure); when the target exists but reading it
fails, the run aborts with the unclassified readdir error and does not
invoke the installer. -/
theorem nlp_C7_readdir_failure_amended (cfg : Config) (orc : Oracle) (s : St)
    (raw : String)
    (hslot : s.slot = SlotState.symlink raw) (hok : verifyLink cfg raw = true) :
    (s.targetDir = none → (runMain cfg orc s).installs = 1) ∧
    (∀ fs, s.targetDir = some fs → s.targetReadable = false →
      (runMain cfg orc s).result = RunResult.err RunError.readdirError ∧
      (runMain cfg orc s).installs = 0) := by
  obtain ⟨rt, sl, td, tr, od⟩ := s
  cases hslot
  constructor
  · intro h
    simp only at h
    cases h
    simp [runMain, classify, branchLinked, runInstall, hok]
    split <;> rfl
  · intro fs h htr
    simp only at h htr
    cases h
    cases htr
    simp [runMain, classify, branchLinked, hok]

/-- C7 amended witness: concrete unreadable-target run. -/
theorem nlp_C7_readdir_failure_amended_wit :
    (runMain cfgU ⟨true, some "/t", 7⟩
        ⟨false, SlotState.symlink cfgU.target, some [], false, []⟩).result =
      RunResult.err RunError.readdirError ∧
    (runMain cfgU ⟨true, some "/t", 7⟩
        ⟨false, SlotState.symlink cfgU.target, some [], false, []⟩).installs = 0 :=
  (nlp_C7_readdir_failure_amended cfgU ⟨true, some "/t", 7⟩
      ⟨false, SlotState.symlink cfgU.target, some [], false, []⟩ cfgU.target
      rfl (by decide)).2 [] rfl rfl

/-- C6 counterexample: a run that reaches `Linked` (valid pre-existing
link) with a cache target that exists, has zero entries, and is
unreadable invokes the installer zero times — not exactly once as the
claim requires for a zero-entry target — because the emptiness check
itself fails. -/
theorem nlp_C6_install_once_cex :
    (runMain cfgU ⟨true, some "/t", 0⟩
        ⟨true, SlotState.symlink cfgU.target, some [], false, []⟩).linked = true ∧
    (runMain cfgU ⟨true, some "/t", 0⟩
        ⟨true, SlotState.symlink cfgU.target, some [], false, []⟩).final.targetDir =
      some [] ∧
    (runMain cfgU ⟨true, some "/t", 0⟩
        ⟨true, SlotState.symlink cfgU.target, some [], false, []⟩).installs = 0 := by
  decide

/-- C6 amended: in no run whatsoever is the installer invoked more than
once; and in every run that reaches `Linked` and whose cache-target
emptiness check does not fail, the installer is invoked exactly once
when the target then has zero entries and zero times when it has at
least one entry. -/
theorem branchLinked_install_spec (orc : Oracle) (s : St) :
    (branchLinked orc s).installs ≤ 1 ∧
    ((branchLinked orc s).result ≠ RunResult.err RunError.readdirError →
      (((branchLinked orc s).final.targetDir.getD [] = [] →
          (branchLinked orc s).installs = 1) ∧
       ((branchLinked orc s).final.targetDir.getD [] ≠ [] →
          (branchLinked orc s).installs = 0))) := by
  obtain ⟨rt, sl, td, tr, od⟩ := s
  unfold branchLinked runInstall
  cases td <;> cases tr <;> dsimp only
  all_goals repeat' split
  all_goals simp_all [List.isEmpty_iff]

theorem afterVacate_install_spec (cfg : Config) (orc : Oracle) (s : St) :
    (afterVacate cfg orc s).installs ≤ 1 ∧
    ((afterVacate cfg orc s).linked = true →
      (afterVacate cfg orc s).result ≠ RunResult.err RunError.readdirError →
      (((afterVacate cfg orc s).final.targetDir.getD [] = [] →
          (afterVacate cfg orc s).installs = 1) ∧
       ((afterVacate cfg orc s).final.targetDir.getD [] ≠ [] →
          (afterVacate cfg orc s).installs = 0))) := by
  obtain ⟨rt, sl, td, tr, od⟩ := s
  obtain ⟨pf, se, ie⟩ := orc
  unfold afterVacate runInstall
  cases se <;> cases td <;> cases tr <;> dsimp only
  all_goals repeat' split
  all_goals simp_all [List.isEmpty_iff]

theorem nlp_C6_install_once_amended (cfg : Config) (orc : Oracle) (s : St) :
    (runMain cfg orc s).installs ≤ 1 ∧
    ((runMain cfg orc s).linked = true →
      (runMain cfg orc s).result ≠ RunResult.err RunError.readdirError →
      (((runMain cfg orc s).final.targetDir.getD [] = [] →
          (runMain cfg orc s).installs = 1) ∧
       ((runMain cfg orc s).final.targetDir.getD [] ≠ [] →
          (runMain cfg orc s).installs = 0))) := by
  obtain ⟨rt, sl, td, tr, od⟩ := s
  cases sl with
  | symlink raw =>
      by_cases hv : verifyLink cfg raw
      · have heq : runMain cfg orc ⟨rt, SlotState.symlink raw, td, tr, od⟩ =
            branchLinked orc ⟨true, SlotState.symlink raw, td, tr, od⟩ := by
          simp [runMain, classify, hv]
        have h := branchLinked_install_spec orc ⟨true, SlotState.symlink raw, td, tr, od⟩
        rw [heq]
        exact ⟨h.1, fun _ => h.2⟩
      · have heq : runMain cfg orc ⟨rt, SlotState.symlink raw, td, tr, od⟩ =
            ⟨⟨true, SlotState.symlink raw, td, tr, od⟩, 0, false,
              RunResult.err RunError.linkMismatch⟩ := by
          simp [runMain, classify, hv]
        rw [heq]
        simp
  | realDir files =>
      cases hw : cfg.isWin
      · by_cases hemp : (td.getD []).isEmpty = true
        · have heq : runMain cfg orc ⟨rt, SlotState.realDir files, td, tr, od⟩ =
              afterVacate cfg orc ⟨true, SlotState.absent, some files, true, od⟩ := by
            simp [runMain, classify, hw, hemp]
          have h := afterVacate_install_spec cfg orc ⟨true, SlotState.absent, some files, true, od⟩
          rw [heq]
          exact ⟨h.1, h.2⟩
        · have heq : runMain cfg orc ⟨rt, SlotState.realDir files, td, tr, od⟩ =
              ⟨⟨true, SlotState.realDir files, td, tr, od⟩, 0, false,
                RunResult.err RunError.renameError⟩ := by
            simp [runMain, classify, hw, hemp]
          rw [heq]
          simp
      · have heq : runMain cfg orc ⟨rt, SlotState.realDir files, td, tr, od⟩ =
            ⟨⟨true, SlotState.realDir files, some (td.getD []), td.isNone || tr, od⟩,
              0, false, RunResult.err RunError.renameError⟩ := by
          simp [runMain, classify, hw]
        rw [heq]
        simp
  | absent =>
      cases td with
      | none =>
          have heq : runMain cfg orc ⟨rt, SlotState.absent, none, tr, od⟩ =
              afterVacate cfg orc ⟨true, SlotState.absent, some [], true, od⟩ := by
            simp [runMain, classify]
          have h := afterVacate_install_spec cfg orc ⟨true, SlotState.absent, some [], true, od⟩
          rw [heq]
          exact ⟨h.1, h.2⟩
      | some fs =>
          have heq : runMain cfg orc ⟨rt, SlotState.absent, some fs, tr, od⟩ =
              afterVacate cfg orc ⟨true, SlotState.absent, some fs, tr, od⟩ := by
            simp [runMain, classify]
          have h := afterVacate_install_spec cfg orc ⟨true, SlotState.absent, some fs, tr, od⟩
          rw [heq]
          exact ⟨h.1, h.2⟩

/-- C6 amended witness: a valid link with a readable, non-empty cache
target invokes the installer zero times. -/
theorem nlp_C6_install_once_amended_wit :
    (runMain cfgU ⟨true, some "/t", 0⟩
        ⟨true, SlotState.symlink cfgU.target, some [("x", "y")], true, []⟩).installs = 0 := by
  have h := nlp_C6_install_once_amended cfgU ⟨true, some "/t", 0⟩
    ⟨true, SlotState.symlink cfgU.target, some [("x", "y")], true, []⟩
  exact (h.2 (by decide) (by decide)).2 (by decide)

/-- Success analysis of the link-creation tail: an `ok` result implies
the target directory was not disturbed after the vacating step and the
slot holds a link whose read-back verifies against the cache target. -/
theorem afterVacate_ok_spec (cfg : Config) (orc : Oracle) (s : St)
    (hok : (afterVacate cfg orc s).result = RunResult.ok) :
    (afterVacate cfg orc s).final.targetDir = s.targetDir ∧
    ∃ raw, (afterVacate cfg orc s).final.slot = SlotState.symlink raw ∧
      verifyLink cfg raw = true := by
  revert hok
  obtain ⟨rt, sl, td, tr, od⟩ := s
  obtain ⟨pf, se, ie⟩ := orc
  unfold afterVacate runInstall
  cases se <;> cases td <;> cases tr <;> dsimp only
  all_goals repeat' split
  all_goals intro hok
  all_goals simp_all

/-- C2: for every invocation where the slot is a real (non-link)
directory, a successful run has moved exactly its files — same relative
paths, same contents, nothing lost or duplicated — into the cache
target, and the slot has become a link whose read-back resolves to the
cache target. -/
theorem nlp_C2_no_data_loss (cfg : Config) (orc : Oracle) (s : St) (files : List FileEntry)
    (hslot : s.slot = SlotState.realDir files)
    (hok : (runMain cfg orc s).result = RunResult.ok) :
    (runMain cfg orc s).final.targetDir = some files ∧
    ∃ raw, (runMain cfg orc s).final.slot = SlotState.symlink raw ∧
      verifyLink cfg raw = true := by
  obtain ⟨rt, sl, td, tr, od⟩ := s
  cases hslot
  cases hw : cfg.isWin
  · by_cases hemp : (td.getD []).isEmpty = true
    · have heq : runMain cfg orc ⟨rt, SlotState.realDir files, td, tr, od⟩ =
          afterVacate cfg orc ⟨true, SlotState.absent, some files, true, od⟩ := by
        simp [runMain, classify, hw, hemp]
      rw [heq] at hok ⊢
      exact afterVacate_ok_spec cfg orc ⟨true, SlotState.absent, some files, true, od⟩ hok
    · have heq : runMain cfg orc ⟨rt, SlotState.realDir files, td, tr, od⟩ =
          ⟨⟨true, SlotState.realDir files, td, tr, od⟩, 0, false,
            RunResult.err RunError.renameError⟩ := by
        simp [runMain, classify, hw, hemp]
      rw [heq] at hok
      cases hok
  · have heq : runMain cfg orc ⟨rt, SlotState.realDir files, td, tr, od⟩ =
        ⟨⟨true, SlotState.realDir files, some (td.getD []), td.isNone || tr, od⟩,
          0, false, RunResult.err RunError.renameError⟩ := by
      simp [runMain, classify, hw]
    rw [heq] at hok
    cases hok

/-- C2 witness: a concrete relocation run succeeds and lands the files
in the cache target with a verified link. -/
theorem nlp_C2_no_data_loss_wit :
    (runMain cfgU ⟨true, some cfgU.target, 0⟩
        ⟨false, SlotState.realDir [("a/b.js", "1")], none, true, []⟩).final.targetDir =
      some [("a/b.js", "1")] ∧
    ∃ raw, (runMain cfgU ⟨true, some cfgU.target, 0⟩
        ⟨false, SlotState.realDir [("a/b.js", "1")], none, true, []⟩).final.slot =
      SlotState.symlink raw ∧ verifyLink cfgU raw = true :=
  nlp_C2_no_data_loss cfgU ⟨true, some cfgU.target, 0⟩
    ⟨false, SlotState.realDir [("a/b.js", "1")], none, true, []⟩ [("a/b.js", "1")]
    rfl (by decide)

/-- An installer invocation that exits non-zero is the last step of the
already-linked branch, and its rejection is the branch's result. -/
theorem branchLinked_install_result (orc : Oracle) (s : St)
    (h : (branchLinked orc s).installs = 1) (hne : orc.installerExit ≠ 0) :
    (branchLinked orc s).result =
      RunResult.err (RunError.installerFailed orc.installerExit) := by
  revert h
  obtain ⟨rt, sl, td, tr, od⟩ := s
  unfold branchLinked runInstall
  cases td <;> cases tr <;> dsimp only
  all_goals repeat' split
  all_goals simp_all

/-- Same fact for the link-creation tail. -/
theorem afterVacate_install_result (cfg : Config) (orc : Oracle) (s : St)
    (h : (afterVacate cfg orc s).installs = 1) (hne : orc.installerExit ≠ 0) :
    (afterVacate cfg orc s).result =
      RunResult.err (RunError.installerFailed orc.installerExit) := by
  revert h
  obtain ⟨rt, sl, td, tr, od⟩ := s
  obtain ⟨pf, se, ie⟩ := orc
  unfold afterVacate runInstall
  cases se <;> cases td <;> cases tr <;> dsimp only
  all_goals repeat' split
  all_goals simp_all

/-- Whole-pipeline version: a run that spawned the installer and saw it
exit non-zero ends with exactly that failure as its result. -/
theorem runMain_install_result (cfg : Config) (orc : Oracle) (s : St)
    (h : (runMain cfg orc s).installs = 1) (hne : orc.installerExit ≠ 0) :
    (runMain cfg orc s).result =
      RunResult.err (RunError.installerFailed orc.installerExit) := by
  revert h
  obtain ⟨rt, sl, td, tr, od⟩ := s
  cases sl with
  | symlink raw =>
      by_cases hv : verifyLink cfg raw
      · have heq : runMain cfg orc ⟨rt, SlotState.symlink raw, td, tr, od⟩ =
            branchLinked orc ⟨true, SlotState.symlink raw, td, tr, od⟩ := by
          simp [runMain, classify, hv]
        rw [heq]
        exact fun h => branchLinked_install_result orc _ h hne
      · have heq : runMain cfg orc ⟨rt, SlotState.symlink raw, td, tr, od⟩ =
            ⟨⟨true, SlotState.symlink raw, td, tr, od⟩, 0, false,
              RunResult.err RunError.linkMismatch⟩ := by
          simp [runMain, classify, hv]
        rw [heq]
        intro h
        cases h
  | realDir files =>
      cases hw : cfg.isWin
      · by_cases hemp : (td.getD []).isEmpty = true
        · have heq : runMain cfg orc ⟨rt, SlotState.realDir files, td, tr, od⟩ =
              afterVacate cfg orc ⟨true, SlotState.absent, some files, true, od⟩ := by
            simp [runMain, classify, hw, hemp]
          rw [heq]
          exact fun h => afterVacate_install_result cfg orc _ h hne
        · have heq : runMain cfg orc ⟨rt, SlotState.realDir files, td, tr, od⟩ =
              ⟨⟨true, SlotState.realDir files, td, tr, od⟩, 0, false,
                RunResult.err RunError.renameError⟩ := by
            simp [runMain, classify, hw, hemp]
          rw [heq]
          intro h
          cases h
      · have heq : runMain cfg orc ⟨rt, SlotState.realDir files, td, tr, od⟩ =
            ⟨⟨true, SlotState.realDir files, some (td.getD []), td.isNone || tr, od⟩,
              0, false, RunResult.err RunError.renameError⟩ := by
          simp [runMain, classify, hw]
        rw [heq]
        intro h
        cases h
  | absent =>
      cases td with
      | none =>
          have heq : runMain cfg orc ⟨rt, SlotState.absent, none, tr, od⟩ =
              afterVacate cfg orc ⟨true, SlotState.absent, some [], true, od⟩ := by
            simp [runMain, classify]
          rw [heq]
          exact fun h => afterVacate_install_result cfg orc _ h hne
      | some fs =>
          have heq : runMain cfg orc ⟨rt, SlotState.absent, some fs, tr, od⟩ =
              afterVacate cfg orc ⟨true, SlotState.absent, some fs, tr, od⟩ := by
            simp [runMain, classify]
          rw [heq]
          exact fun h => afterVacate_install_result cfg orc _ h hne

/-- C8 counterexample: the installer exits with code 2, the run fails
with that installer failure, yet the process exit status is the generic
1 — the installer's exit code is not propagated as the tool's exit
status (it only appears in the error message), contradicting the
claim. -/
theorem nlp_C8_exit_propagation_cex :
    (runMain cfgU ⟨true, some "/t", 2⟩
        ⟨true, SlotState.symlink cfgU.target, none, true, []⟩).result =
      RunResult.err (RunError.installerFailed 2) ∧
    exitCode (runMain cfgU ⟨true, some "/t", 2⟩
        ⟨true, SlotState.symlink cfgU.target, none, true, []⟩) = 1 := by
  decide

/-- C8 amended: the process exit status is 0 on success and the generic
1 on every fatal error — including an installer failure, where the run's
result records the installer's exit code but the process still exits
with 1 rather than propagating that code. -/
theorem nlp_C8_exit_codes_amended (cfg : Config) (orc : Oracle) (s : St) :
    ((runMain cfg orc s).result = RunResult.ok → exitCode (runMain cfg orc s) = 0) ∧
    (∀ e, (runMain cfg orc s).result = RunResult.err e →
      exitCode (runMain cfg orc s) = 1) ∧
    ((runMain cfg orc s).installs = 1 → orc.installerExit ≠ 0 →
      (runMain cfg orc s).result =
        RunResult.err (RunError.installerFailed orc.installerExit)) := by
  refine ⟨fun h => ?_, fun e h => ?_, fun h hne => runMain_install_result cfg orc s h hne⟩
  · simp [exitCode, h]
  · simp [exitCode, h]

/-- C8 amended witness: a concrete successful run exits 0. -/
theorem nlp_C8_exit_codes_amended_wit :
    exitCode (runMain cfgU ⟨true, some cfgU.target, 0⟩
      ⟨false, SlotState.absent, none, true, []⟩) = 0 :=
  (nlp_C8_exit_codes_amended cfgU ⟨true, some cfgU.target, 0⟩
      ⟨false, SlotState.absent, none, true, []⟩).1 (by decide)
